import Mathlib

/-
Verification of src/utils_curl_stats.c (collectd): the field registry
(field_specs), the selector (curl_stats_from_config) and the dispatcher
(curl_stats_dispatch).

Modelling conventions, all drawn from the C source:
  * curl_stats_t is a C struct of 17 bools, one per registry row, declared in
    exactly the order of the field_specs table; enable_field / field_enabled
    address a member through offsetof.  The struct is modelled as a function
    from member index (Fin numFields) to Bool, and offsetof(curl_stats_t, m)
    is modelled as the index of member m, so field_specs row i carries
    offset i.
  * Machine doubles carried by value_t.gauge are modelled as exact rationals
    (the code only copies them, multiplies one by 8, and widens a long);
    fixed-size string buffers (sstrncpy / ssnprintf truncation) are modelled
    as unbounded strings.
  * curl_easy_getinfo is modelled as two oracles on the transfer handle, one
    per out-parameter type used by the code (double and long); a CURLcode
    other than CURLE_OK is modelled as none.
  * plugin_dispatch_values is modelled as an explicit sink parameter
    returning its int status.  The dispatch loop additionally returns the
    list of samples the sink accepted (status not below zero), as semantic
    instrumentation of the external sink; the int component is exactly the
    C return value.
  * The two ERROR log calls in curl_stats_from_config are the only way the
    two construction failures differ, so the result is modelled as
    Except ConfigError with one constructor per ERROR call; in C both paths
    free the partial struct and return NULL.  The ci == NULL guard and the
    calloc-failure path (both returning NULL before any child is read) are
    outside the model, which takes the children of a present node.
-/

/-- CURLINFO keys used by the registry table, one per SPEC row. -/
inductive CURLINFO where
  | CURLINFO_TOTAL_TIME
  | CURLINFO_NAMELOOKUP_TIME
  | CURLINFO_CONNECT_TIME
  | CURLINFO_PRETRANSFER_TIME
  | CURLINFO_SIZE_UPLOAD
  | CURLINFO_SIZE_DOWNLOAD
  | CURLINFO_SPEED_DOWNLOAD
  | CURLINFO_SPEED_UPLOAD
  | CURLINFO_HEADER_SIZE
  | CURLINFO_REQUEST_SIZE
  | CURLINFO_CONTENT_LENGTH_DOWNLOAD
  | CURLINFO_CONTENT_LENGTH_UPLOAD
  | CURLINFO_STARTTRANSFER_TIME
  | CURLINFO_REDIRECT_TIME
  | CURLINFO_REDIRECT_COUNT
  | CURLINFO_NUM_CONNECTS
  | CURLINFO_APPCONNECT_TIME
deriving DecidableEq

/-- The three dispatcher function pointers stored in field_specs rows:
dispatch_gauge, dispatch_speed and dispatch_size.  The stored pointer is
modelled as a tag selecting among the three functions (applyDispatcher). -/
inductive DispatchKind where
  | gauge
  | speed
  | size
deriving DecidableEq

/-- STATIC_ARRAY_SIZE (field_specs): the table has 17 rows, and struct
curl_stats_s has the 17 matching bool members in the same order. -/
def numFields : Nat := 17

/-- struct curl_stats_s: 17 bools, one per registry row, indexed by member
position (member i is the field of field_specs row i). -/
def curl_stats_t : Type := Fin numFields → Bool

/-- calloc (sizeof (*s), 1): the struct starts zeroed, every field disabled. -/
def curl_stats_init : curl_stats_t := fun _ => false

/-- One row of the field_specs table: SPEC (name, dispatcher, type, info)
expands to { #name, offsetof (curl_stats_t, name), dispatcher, type, info }. -/
structure FieldSpec where
  name : String
  offset : Fin numFields
  dispatcher : DispatchKind
  type : String
  info : CURLINFO

/-- The field_specs table, row for row from the source. -/
def field_specs : List FieldSpec :=
  [ { name := "total_time", offset := ⟨0, by decide⟩, dispatcher := .gauge,
      type := "duration", info := .CURLINFO_TOTAL_TIME },
    { name := "namelookup_time", offset := ⟨1, by decide⟩, dispatcher := .gauge,
      type := "duration", info := .CURLINFO_NAMELOOKUP_TIME },
    { name := "connect_time", offset := ⟨2, by decide⟩, dispatcher := .gauge,
      type := "duration", info := .CURLINFO_CONNECT_TIME },
    { name := "pretransfer_time", offset := ⟨3, by decide⟩, dispatcher := .gauge,
      type := "duration", info := .CURLINFO_PRETRANSFER_TIME },
    { name := "size_upload", offset := ⟨4, by decide⟩, dispatcher := .gauge,
      type := "bytes", info := .CURLINFO_SIZE_UPLOAD },
    { name := "size_download", offset := ⟨5, by decide⟩, dispatcher := .gauge,
      type := "bytes", info := .CURLINFO_SIZE_DOWNLOAD },
    { name := "speed_download", offset := ⟨6, by decide⟩, dispatcher := .speed,
      type := "bitrate", info := .CURLINFO_SPEED_DOWNLOAD },
    { name := "speed_upload", offset := ⟨7, by decide⟩, dispatcher := .speed,
      type := "bitrate", info := .CURLINFO_SPEED_UPLOAD },
    { name := "header_size", offset := ⟨8, by decide⟩, dispatcher := .size,
      type := "bytes", info := .CURLINFO_HEADER_SIZE },
    { name := "request_size", offset := ⟨9, by decide⟩, dispatcher := .size,
      type := "bytes", info := .CURLINFO_REQUEST_SIZE },
    { name := "content_length_download", offset := ⟨10, by decide⟩, dispatcher := .gauge,
      type := "bytes", info := .CURLINFO_CONTENT_LENGTH_DOWNLOAD },
    { name := "content_length_upload", offset := ⟨11, by decide⟩, dispatcher := .gauge,
      type := "bytes", info := .CURLINFO_CONTENT_LENGTH_UPLOAD },
    { name := "starttransfer_time", offset := ⟨12, by decide⟩, dispatcher := .gauge,
      type := "duration", info := .CURLINFO_STARTTRANSFER_TIME },
    { name := "redirect_time", offset := ⟨13, by decide⟩, dispatcher := .gauge,
      type := "duration", info := .CURLINFO_REDIRECT_TIME },
    { name := "redirect_count", offset := ⟨14, by decide⟩, dispatcher := .size,
      type := "count", info := .CURLINFO_REDIRECT_COUNT },
    { name := "num_connects", offset := ⟨15, by decide⟩, dispatcher := .size,
      type := "count", info := .CURLINFO_NUM_CONNECTS },
    { name := "appconnect_time", offset := ⟨16, by decide⟩, dispatcher := .gauge,
      type := "duration", info := .CURLINFO_APPCONNECT_TIME } ]

/-- field_specs[f]: row access by index. -/
def fieldSpec (f : Fin numFields) : FieldSpec :=
  field_specs.get f

/-- enable_field (s, offset): *(bool *)((char *)s + offset) = true. -/
def enable_field (s : curl_stats_t) (offset : Fin numFields) : curl_stats_t :=
  fun j => if j = offset then true else s j

/-- field_enabled (s, offset): *(bool *)((char *)s + offset). -/
def field_enabled (s : curl_stats_t) (offset : Fin numFields) : Bool :=
  s offset

/-- strcasecmp (a, b) == 0: ASCII case-insensitive string equality. -/
def strcaseEq (a b : String) : Bool :=
  a.data.map Char.toLower == b.data.map Char.toLower

/-- Modelled from the spec: IS_TRUE lives in common.h, which is not part of
the visible source; the spec delegates to the configuration format's boolean
rule — a string recognized as boolean true, case-insensitive ("true" and the
accepted synonyms "yes" and "on"). -/
def IS_TRUE (s : String) : Bool :=
  strcaseEq s "true" || strcaseEq s "yes" || strcaseEq s "on"

/-- oconfig value types: OCONFIG_TYPE_STRING, OCONFIG_TYPE_NUMBER and
OCONFIG_TYPE_BOOLEAN.  The numeric payload is never inspected by this code
(only the type tag is tested), so it is not carried. -/
inductive oconfig_value where
  | string (s : String)
  | number
  | boolean (b : Bool)
deriving DecidableEq

/-- oconfig_item_t: key, values (values_num is the list length) and
children (children_num is the list length). -/
inductive oconfig_item where
  | mk (key : String) (values : List oconfig_value) (children : List oconfig_item)

/-- ci->key. -/
def oconfig_item.key : oconfig_item → String
  | .mk k _ _ => k

/-- ci->values. -/
def oconfig_item.values : oconfig_item → List oconfig_value
  | .mk _ v _ => v

/-- ci->children. -/
def oconfig_item.children : oconfig_item → List oconfig_item
  | .mk _ _ c => c

/-- The two ERROR paths of curl_stats_from_config: "Unknown field name %s"
and "`%s' expects a single boolean argument", each naming the key; both
free the partial struct and return NULL. -/
inductive ConfigError where
  | unknownField (key : String)
  | invalidValue (key : String)
deriving DecidableEq

/-- The inner lookup loop of curl_stats_from_config: the first table row
whose name matches the key under strcasecmp, if any. -/
def findField (key : String) : Option (Fin numFields) :=
  (List.finRange numFields).find? (fun f => strcaseEq key (fieldSpec f).name)

/-- One iteration of the loop body of curl_stats_from_config on child c:
unknown key fails; then a child must have exactly one value of string or
boolean type; a true boolean or an IS_TRUE string enables the field, any
other accepted value leaves the struct unchanged. -/
def processEntry (s : curl_stats_t) (c : oconfig_item) : Except ConfigError curl_stats_t :=
  match findField c.key with
  | none => .error (.unknownField c.key)
  | some field =>
    match c.values with
    | [.string str] =>
      if IS_TRUE str then .ok (enable_field s (fieldSpec field).offset) else .ok s
    | [.boolean b] =>
      if b then .ok (enable_field s (fieldSpec field).offset) else .ok s
    | _ => .error (.invalidValue c.key)

/-- The children loop of curl_stats_from_config: process each child in
order, stopping at the first failure. -/
def configLoop : curl_stats_t → List oconfig_item → Except ConfigError curl_stats_t
  | s, [] => .ok s
  | s, c :: rest =>
    match processEntry s c with
    | .error e => .error e
    | .ok s2 => configLoop s2 rest

/-- curl_stats_from_config (ci): start from the zeroed struct and fold the
children.  (The C guards ci == NULL and calloc failure, both returning NULL
before any child is read, are outside the model.) -/
def curl_stats_from_config (ci : oconfig_item) : Except ConfigError curl_stats_t :=
  configLoop curl_stats_init ci.children

/-- value_list_t, restricted to the members this code writes: identification
strings and the single-value payload (value_t.gauge as an exact rational). -/
structure value_list where
  host : String
  plugin : String
  plugin_instance : String
  type : String
  type_instance : String
  values : List ℚ
deriving DecidableEq

/-- Modelled from the spec: VALUE_LIST_INIT comes from plugin.h, which is not
part of the visible source; the spec says host, plugin and plugin instance
start out unset ("leave unset" when the caller passes none), modelled as
empty strings, with no values attached. -/
def VALUE_LIST_INIT : value_list :=
  { host := "", plugin := "", plugin_instance := "", type := "",
    type_instance := "", values := [] }

/-- Modelled from the spec: the transfer-statistics source (a CURL easy
handle after a completed transfer) is opaque; curl_easy_getinfo supports
getting a floating-point value or a native-integer (long) value by key,
either of which may fail (a CURLcode other than CURLE_OK, modelled as
none).  Doubles are modelled as exact rationals. -/
structure CURL where
  getinfo_gauge : CURLINFO → Option ℚ
  getinfo_long : CURLINFO → Option Int

/-- dispatch_gauge (curl, info, vl): fetch a double; on failure return -1,
else attach it as the single value and hand vl to the sink
(plugin_dispatch_values), returning the sink's status.  The second
component records what was handed to the sink. -/
def dispatch_gauge (curl : CURL) (info : CURLINFO) (vl : value_list)
    (sink : value_list → Int) : Int × Option value_list :=
  match curl.getinfo_gauge info with
  | none => (-1, none)
  | some g =>
    let vl2 := { vl with values := [g] }
    (sink vl2, some vl2)

/-- dispatch_speed (curl, info, vl): like dispatch_gauge but the fetched
bytes-per-second value is multiplied by 8 (v.gauge *= 8) before dispatch. -/
def dispatch_speed (curl : CURL) (info : CURLINFO) (vl : value_list)
    (sink : value_list → Int) : Int × Option value_list :=
  match curl.getinfo_gauge info with
  | none => (-1, none)
  | some g =>
    let vl2 := { vl with values := [g * 8] }
    (sink vl2, some vl2)

/-- dispatch_size (curl, info, vl): fetch a long and widen it to a gauge
(v.gauge = (double)raw) before dispatch. -/
def dispatch_size (curl : CURL) (info : CURLINFO) (vl : value_list)
    (sink : value_list → Int) : Int × Option value_list :=
  match curl.getinfo_long info with
  | none => (-1, none)
  | some raw =>
    let vl2 := { vl with values := [(raw : ℚ)] }
    (sink vl2, some vl2)

/-- Calling the function pointer stored in a field_specs row. -/
def applyDispatcher : DispatchKind → CURL → CURLINFO → value_list →
    (value_list → Int) → Int × Option value_list
  | .gauge => dispatch_gauge
  | .speed => dispatch_speed
  | .size => dispatch_size

/-- The field loop of curl_stats_dispatch, walking the registry indices in
order: skip disabled fields; for an enabled field set vl.type and
vl.type_instance (the optional instance p-refix concatenated with the field
name), clear the values, and call the row's dispatcher; a negative status
aborts the loop and is returned.  The list component collects the samples
the sink accepted, in order. -/
def runFields (s : curl_stats_t) (curl : CURL) (instPre : Option String)
    (sink : value_list → Int) (vl : value_list) :
    List (Fin numFields) → List value_list × Int
  | [] => ([], 0)
  | f :: rest =>
    if field_enabled s (fieldSpec f).offset then
      let vl2 := { vl with type := (fieldSpec f).type,
                           type_instance := (instPre.getD "") ++ (fieldSpec f).name,
                           values := [] }
      let step := applyDispatcher (fieldSpec f).dispatcher curl (fieldSpec f).info vl2 sink
      if step.1 < 0 then ([], step.1)
      else
        let r := runFields s curl instPre sink vl rest
        (step.2.toList ++ r.1, r.2)
    else runFields s curl instPre sink vl rest

/-- curl_stats_dispatch (s, curl, hostname, plugin, plugin_instance,
instance p-refix): a NULL selector returns 0 at once; then a NULL curl
handle returns -1; otherwise the host/plugin/plugin-instance metadata that
was passed is copied into vl (absent arguments leave the initial value) and
the field loop runs.  Returns the list of sink-accepted samples together
with the C int return value. -/
def curl_stats_dispatch (s : Option curl_stats_t) (curl : Option CURL)
    (hostname plugin plugin_instance instPre : Option String)
    (sink : value_list → Int) : List value_list × Int :=
  match s with
  | none => ([], 0)
  | some stats =>
    match curl with
    | none => ([], -1)
    | some handle =>
      let vl := { VALUE_LIST_INIT with
                    host := hostname.getD VALUE_LIST_INIT.host,
                    plugin := plugin.getD VALUE_LIST_INIT.plugin,
                    plugin_instance := plugin_instance.getD VALUE_LIST_INIT.plugin_instance }
      runFields stats handle instPre sink vl (List.finRange numFields)

/-- A child carries exactly one value of string or boolean type (the arity
and type test of curl_stats_from_config, lines 183-185). -/
def entryWellTyped (c : oconfig_item) : Bool :=
  match c.values with
  | [.string _] => true
  | [.boolean _] => true
  | _ => false

/-- A child passes both validation steps of curl_stats_from_config: its key
names a registry row and it carries one string-or-boolean value. -/
def entryWellFormed (c : oconfig_item) : Bool :=
  (findField c.key).isSome && entryWellTyped c

/-- A child's resolved value is boolean true: a true boolean literal or an
IS_TRUE string (the enabling test of curl_stats_from_config, lines 191-194). -/
def entryTrue (c : oconfig_item) : Bool :=
  match c.values with
  | [.string str] => IS_TRUE str
  | [.boolean b] => b
  | _ => false

/-- A child enables registry field f: its key resolves to f and its value is
boolean true. -/
def entryEnables (c : oconfig_item) (f : Fin numFields) : Bool :=
  (findField c.key == some f) && entryTrue c

/-- The extraction-and-conversion step a row's dispatcher performs on the
transfer handle: dispatch_gauge fetches a double as-is, dispatch_speed
fetches a double and multiplies by 8, dispatch_size fetches a long and
widens it. -/
def fieldExtract (curl : CURL) (f : Fin numFields) : Option ℚ :=
  match (fieldSpec f).dispatcher with
  | .gauge => curl.getinfo_gauge (fieldSpec f).info
  | .speed => (curl.getinfo_gauge (fieldSpec f).info).map (fun g => g * 8)
  | .size => (curl.getinfo_long (fieldSpec f).info).map (fun n => (n : ℚ))

/-- The value_list as curl_stats_dispatch initializes it from its metadata
arguments before the field loop. -/
def baseVL (hostname plugin plugin_instance : Option String) : value_list :=
  { VALUE_LIST_INIT with
      host := hostname.getD VALUE_LIST_INIT.host,
      plugin := plugin.getD VALUE_LIST_INIT.plugin,
      plugin_instance := plugin_instance.getD VALUE_LIST_INIT.plugin_instance }

/-- The sample the field loop hands to the sink for registry field f when
extraction succeeds: base metadata, the row's type, the optional instance
p-refix concatenated with the row's name, and the converted value. -/
def mkSample (vl : value_list) (instPre : Option String) (curl : CURL)
    (f : Fin numFields) : value_list :=
  { vl with type := (fieldSpec f).type,
            type_instance := (instPre.getD "") ++ (fieldSpec f).name,
            values := [(fieldExtract curl f).getD 0] }

/-- Each registry row's recorded offset addresses the struct member with the
row's own index: struct curl_stats_s declares its members in table order. -/
theorem offset_eq : ∀ f : Fin numFields, (fieldSpec f).offset = f := by decide

/-- Registry names are pairwise distinct: equal names mean equal rows. -/
theorem name_inj : ∀ g f : Fin numFields,
    (fieldSpec g).name = (fieldSpec f).name → g = f := by decide

/-- Appending to a common front string is injective. -/
theorem string_append_cancel (p a b : String) (h : p ++ a = p ++ b) : a = b := by
  cases a with
  | mk da =>
    cases b with
    | mk db =>
      cases p with
      | mk dp =>
        have h2 : dp ++ da = dp ++ db := congrArg String.data h
        exact congrArg String.mk (List.append_cancel_left h2)


/-- A well-formed child never fails: processEntry returns the struct with
the resolved field enabled when the value is true, unchanged otherwise. -/
theorem processEntry_ok (s : curl_stats_t) (c : oconfig_item) (i : Fin numFields)
    (hk : findField c.key = some i) (ht : entryWellTyped c = true) :
    processEntry s c =
      Except.ok (if entryTrue c then enable_field s (fieldSpec i).offset else s) := by
  match hv : c.values with
  | [.string str] =>
    by_cases hs : IS_TRUE str <;>
      simp [processEntry, hk, hv, entryTrue, hs]
  | [.boolean b] =>
    cases b <;> simp [processEntry, hk, hv, entryTrue]
  | [] =>
    unfold entryWellTyped at ht; rw [hv] at ht; simp at ht
  | [.number] =>
    unfold entryWellTyped at ht; rw [hv] at ht; simp at ht
  | v :: w :: rest =>
    unfold entryWellTyped at ht; rw [hv] at ht; cases v <;> simp at ht

/-- An unknown key fails with the first ERROR path, naming the key. -/
theorem processEntry_err_unknown (s : curl_stats_t) (c : oconfig_item)
    (hk : findField c.key = none) :
    processEntry s c = Except.error (.unknownField c.key) := by
  unfold processEntry
  rw [hk]

/-- A recognized key with a bad arity or value type fails with the second
ERROR path, naming the key. -/
theorem processEntry_err_invalid (s : curl_stats_t) (c : oconfig_item) (i : Fin numFields)
    (hk : findField c.key = some i) (ht : entryWellTyped c = false) :
    processEntry s c = Except.error (.invalidValue c.key) := by
  match hv : c.values with
  | [.string str] =>
    unfold entryWellTyped at ht; rw [hv] at ht; simp at ht
  | [.boolean b] =>
    unfold entryWellTyped at ht; rw [hv] at ht; simp at ht
  | [] => simp [processEntry, hk, hv]
  | [.number] => simp [processEntry, hk, hv]
  | v :: w :: rest => cases v <;> simp [processEntry, hk, hv]

/-- On an all-well-formed child list the loop succeeds and computes, field
by field, the disjunction of the start value with "some child enables it". -/
theorem configLoop_ok_of_wf :
    ∀ (children : List oconfig_item) (s : curl_stats_t),
    children.all entryWellFormed = true →
    configLoop s children =
      Except.ok (fun f => s f || children.any (fun c => entryEnables c f)) := by
  intro children
  induction children with
  | nil => intro s _; simp [configLoop]
  | cons c rest ih =>
    intro s hall
    rw [List.all_cons, Bool.and_eq_true] at hall
    obtain ⟨hc, hrest⟩ := hall
    have hc2 := hc
    rw [entryWellFormed, Bool.and_eq_true, Option.isSome_iff_exists] at hc2
    obtain ⟨⟨i, hi⟩, ht⟩ := hc2
    show (match processEntry s c with
          | Except.error e => Except.error e
          | Except.ok s2 => configLoop s2 rest) = _
    rw [processEntry_ok s c i hi ht]
    show configLoop (if entryTrue c then enable_field s (fieldSpec i).offset else s) rest = _
    rw [ih _ hrest]
    have hstep : ∀ f, (if entryTrue c then enable_field s (fieldSpec i).offset else s) f
        = (s f || entryEnables c f) := by
      intro f
      rw [offset_eq]
      unfold entryEnables
      rw [hi]
      cases he : entryTrue c
      · simp [he]
      · by_cases hf : f = i
        · subst hf; simp [enable_field, he]
        · have hif : (some i == some f) = false := by
            simp only [beq_eq_false_iff_ne, ne_eq, Option.some.injEq]
            intro h2; exact hf h2.symm
          simp [enable_field, hf, hif]
    congr 1
    funext f
    rw [List.any_cons, hstep f, Bool.or_assoc]

/-- The loop fails at the first ill-formed child: with every earlier child
well-formed, the error is UnknownField for an unrecognized key and
InvalidValue for a recognized key with bad arity or value type. -/
theorem configLoop_first_bad :
    ∀ (pre : List oconfig_item) (c : oconfig_item) (post : List oconfig_item)
      (s : curl_stats_t),
    pre.all entryWellFormed = true → entryWellFormed c = false →
    configLoop s (pre ++ c :: post) =
      Except.error (if (findField c.key).isSome then ConfigError.invalidValue c.key
                    else ConfigError.unknownField c.key) := by
  intro pre
  induction pre with
  | nil =>
    intro c post s _ hbad
    cases hk : findField c.key with
    | none =>
      show (match processEntry s c with
            | Except.error e => Except.error e
            | Except.ok s2 => configLoop s2 post) = _
      rw [processEntry_err_unknown s c hk]
      rfl
    | some i =>
      have ht : entryWellTyped c = false := by
        rw [entryWellFormed, hk] at hbad
        simpa using hbad
      show (match processEntry s c with
            | Except.error e => Except.error e
            | Except.ok s2 => configLoop s2 post) = _
      rw [processEntry_err_invalid s c i hk ht]
      rfl
  | cons d pre ih =>
    intro c post s hpre hbad
    rw [List.all_cons, Bool.and_eq_true] at hpre
    obtain ⟨hd, hpre⟩ := hpre
    have hd2 := hd
    rw [entryWellFormed, Bool.and_eq_true, Option.isSome_iff_exists] at hd2
    obtain ⟨⟨i, hi⟩, ht⟩ := hd2
    rw [List.cons_append]
    show (match processEntry s d with
          | Except.error e => Except.error e
          | Except.ok s2 => configLoop s2 (pre ++ c :: post)) = _
    rw [processEntry_ok s d i hi ht]
    show configLoop (if entryTrue d then enable_field s (fieldSpec i).offset else s)
          (pre ++ c :: post) = _
    exact ih c post _ hpre hbad

/-- Calling a row's dispatcher is extraction-and-conversion followed by one
sink call: on extraction failure it returns -1 having handed nothing to the
sink; on success it hands the sample carrying the converted value and
returns the sink's status. -/
theorem dispatcher_step (f : Fin numFields) (curl : CURL) (vl : value_list)
    (sink : value_list → Int) :
    applyDispatcher (fieldSpec f).dispatcher curl (fieldSpec f).info vl sink =
      match fieldExtract curl f with
      | none => (-1, none)
      | some v => (sink { vl with values := [v] }, some { vl with values := [v] }) := by
  cases hd : (fieldSpec f).dispatcher with
  | gauge =>
    cases hg : curl.getinfo_gauge (fieldSpec f).info <;>
      simp [applyDispatcher, dispatch_gauge, fieldExtract, hd, hg]
  | speed =>
    cases hg : curl.getinfo_gauge (fieldSpec f).info <;>
      simp [applyDispatcher, dispatch_speed, fieldExtract, hd, hg]
  | size =>
    cases hg : curl.getinfo_long (fieldSpec f).info <;>
      simp [applyDispatcher, dispatch_size, fieldExtract, hd, hg]

/-- On a transfer handle whose two getinfo oracles always answer,
extraction succeeds for every registry row. -/
theorem fieldExtract_isSome_of_total (curl : CURL)
    (hsrc : ∀ i, (curl.getinfo_gauge i).isSome = true ∧ (curl.getinfo_long i).isSome = true) :
    ∀ f, (fieldExtract curl f).isSome = true := by
  intro f
  unfold fieldExtract
  cases (fieldSpec f).dispatcher with
  | gauge => exact (hsrc (fieldSpec f).info).1
  | speed => simpa using (hsrc (fieldSpec f).info).1
  | size =>
    cases hg : curl.getinfo_long (fieldSpec f).info with
    | none =>
      have h2 := (hsrc (fieldSpec f).info).2
      rw [hg] at h2
      simp at h2
    | some n => simp [hg]

/-- When every enabled field in the walked index list extracts successfully
and the sink accepts every handed sample, the loop emits one sample per
enabled index, in list order, and returns 0. -/
theorem runFields_ok (s : curl_stats_t) (curl : CURL) (instPre : Option String)
    (sink : value_list → Int) (vl : value_list) :
    ∀ l : List (Fin numFields),
    (∀ f ∈ l, field_enabled s (fieldSpec f).offset = true →
       (fieldExtract curl f).isSome = true ∧ 0 ≤ sink (mkSample vl instPre curl f)) →
    runFields s curl instPre sink vl l =
      ((l.filter (fun f => field_enabled s (fieldSpec f).offset)).map
         (mkSample vl instPre curl), 0) := by
  intro l
  induction l with
  | nil => intro _; simp [runFields]
  | cons f rest ih =>
    intro h
    by_cases he : field_enabled s (fieldSpec f).offset = true
    · obtain ⟨hsome, hsink⟩ := h f (by simp) he
      obtain ⟨v, hv⟩ := Option.isSome_iff_exists.mp hsome
      have hmk : mkSample vl instPre curl f =
          { vl with type := (fieldSpec f).type,
                    type_instance := (instPre.getD "") ++ (fieldSpec f).name,
                    values := [v] } := by
        simp [mkSample, hv]
      rw [hmk] at hsink
      simp only [runFields, he, if_true, dispatcher_step, hv]
      rw [if_neg (by simpa using not_lt.mpr hsink)]
      rw [ih (fun g hg hge => h g (List.mem_cons_of_mem f hg) hge)]
      simp [List.filter_cons, he, hmk]
    · simp only [runFields, he, if_false]
      rw [ih (fun g hg hge => h g (List.mem_cons_of_mem f hg) hge)]
      simp [List.filter_cons, he]

/-- When the loop reaches an enabled index whose extraction fails or whose
sample the sink rejects, having succeeded on every enabled index before it,
it returns the samples of the earlier enabled indices and a negative
status, emitting nothing for the failing index or any later one. -/
theorem runFields_fail (s : curl_stats_t) (curl : CURL) (instPre : Option String)
    (sink : value_list → Int) (vl : value_list) (f : Fin numFields)
    (hen : field_enabled s (fieldSpec f).offset = true)
    (hfail : fieldExtract curl f = none ∨ sink (mkSample vl instPre curl f) < 0) :
    ∀ l1 l2 : List (Fin numFields),
    (∀ g ∈ l1, field_enabled s (fieldSpec g).offset = true →
       (fieldExtract curl g).isSome = true ∧ 0 ≤ sink (mkSample vl instPre curl g)) →
    ∃ st : Int, st < 0 ∧
      runFields s curl instPre sink vl (l1 ++ f :: l2) =
        ((l1.filter (fun g => field_enabled s (fieldSpec g).offset)).map
           (mkSample vl instPre curl), st) := by
  intro l1
  induction l1 with
  | nil =>
    intro l2 _
    cases hv : fieldExtract curl f with
    | none =>
      refine ⟨-1, by decide, ?_⟩
      simp only [List.nil_append, runFields, hen, if_true, dispatcher_step, hv]
      simp
    | some v =>
      have hneg : sink (mkSample vl instPre curl f) < 0 := by
        cases hfail with
        | inl h => rw [h] at hv; cases hv
        | inr h => exact h
      have hmk : mkSample vl instPre curl f =
          { vl with type := (fieldSpec f).type,
                    type_instance := (instPre.getD "") ++ (fieldSpec f).name,
                    values := [v] } := by
        simp [mkSample, hv]
      rw [hmk] at hneg
      refine ⟨_, hneg, ?_⟩
      simp only [List.nil_append, runFields, hen, if_true, dispatcher_step, hv]
      rw [if_pos (by simpa using hneg)]
      simp
  | cons g l1 ih =>
    intro l2 h
    obtain ⟨st, hst, hrun⟩ := ih l2 (fun x hx hxe => h x (List.mem_cons_of_mem g hx) hxe)
    by_cases hg : field_enabled s (fieldSpec g).offset = true
    · obtain ⟨hsome, hsink⟩ := h g (by simp) hg
      obtain ⟨v, hv⟩ := Option.isSome_iff_exists.mp hsome
      have hmk : mkSample vl instPre curl g =
          { vl with type := (fieldSpec g).type,
                    type_instance := (instPre.getD "") ++ (fieldSpec g).name,
                    values := [v] } := by
        simp [mkSample, hv]
      rw [hmk] at hsink
      refine ⟨st, hst, ?_⟩
      rw [List.cons_append]
      simp only [runFields, hg, if_true, dispatcher_step, hv]
      rw [if_neg (by simpa using not_lt.mpr hsink)]
      rw [hrun]
      simp [List.filter_cons, hg, hmk]
    · refine ⟨st, hst, ?_⟩
      rw [List.cons_append]
      simp only [runFields, hg, if_false]
      rw [hrun]
      simp [List.filter_cons, hg]

/-- The registry walk order: the full index list splits, around any index f,
into the indices before f, f itself, and the indices after f. -/
theorem finRange_split : ∀ f : Fin numFields,
    List.finRange numFields =
      ((List.finRange numFields).filter (fun g => decide (g < f))) ++ f ::
      ((List.finRange numFields).filter (fun g => decide (f < g))) := by decide

/-- The registry index list is strictly increasing. -/
theorem finRange_pairwise :
    (List.finRange numFields).Pairwise (fun a b => a < b) := by decide

/-- Filtering commutes with mapping: filtering the image is mapping the
filtered preimage. -/
theorem filter_map_comm {α β : Type} (g : α → β) (p : β → Bool) :
    ∀ l : List α, (l.map g).filter p = (l.filter (fun a => p (g a))).map g := by
  intro l
  induction l with
  | nil => simp
  | cons a l ih =>
    by_cases hp : p (g a) = true <;>
      simp [List.filter_cons, hp, ih]

/-- In a duplicate-free list containing f, the elements satisfying a
predicate and equal to f are exactly f when the predicate holds at f. -/
theorem filter_eq_singleton {α : Type} [DecidableEq α] (p : α → Bool) (f : α) :
    ∀ l : List α, l.Nodup → f ∈ l →
    l.filter (fun g => decide (g = f) && p g) = if p f then [f] else [] := by
  intro l
  induction l with
  | nil => intro _ hm; cases hm
  | cons a l ih =>
    intro hnd hm
    rw [List.nodup_cons] at hnd
    obtain ⟨hna, hnd⟩ := hnd
    by_cases haf : a = f
    · subst haf
      have hrest : l.filter (fun g => decide (g = a) && p g) = [] := by
        rw [List.filter_eq_nil_iff]
        intro b hb
        have : b ≠ a := fun hba => hna (hba ▸ hb)
        simp [this]
      cases hp : p a
      · simp [List.filter_cons, hp, hrest]
      · simp [List.filter_cons, hp, hrest]
    · have hm2 : f ∈ l := by
        cases hm with
        | head => exact absurd rfl haf
        | tail _ h2 => exact h2
      have hhead : (decide (a = f) && p a) = false := by simp [haf]
      simp only [List.filter_cons, hhead]
      exact ih hnd hm2

/-- Success characterization of the dispatcher: on a fully answering handle
with an accepting sink, the emitted samples are exactly one per enabled
field, in registry order, and the return value is 0. -/
theorem dispatch_char (s : curl_stats_t) (curl : CURL)
    (hostname plugin plugin_instance instPre : Option String) (sink : value_list → Int)
    (hsrc : ∀ i, (curl.getinfo_gauge i).isSome = true ∧ (curl.getinfo_long i).isSome = true)
    (hsink : ∀ v, 0 ≤ sink v) :
    curl_stats_dispatch (some s) (some curl) hostname plugin plugin_instance instPre sink =
      (((List.finRange numFields).filter (fun f => field_enabled s f)).map
         (mkSample (baseVL hostname plugin plugin_instance) instPre curl), 0) := by
  have hd : curl_stats_dispatch (some s) (some curl) hostname plugin plugin_instance instPre sink
      = runFields s curl instPre sink (baseVL hostname plugin plugin_instance)
          (List.finRange numFields) := rfl
  rw [hd, runFields_ok s curl instPre sink (baseVL hostname plugin plugin_instance)
        (List.finRange numFields)
        (fun f _ _ => ⟨fieldExtract_isSome_of_total curl hsrc f, hsink _⟩)]
  have hfe : (List.finRange numFields).filter
        (fun g => field_enabled s (fieldSpec g).offset)
      = (List.finRange numFields).filter (fun g => field_enabled s g) :=
    List.filter_congr (fun g _ => by rw [offset_eq])
  rw [hfe]

/-- The samples of one field: filtering a successful dispatch's output by
field f's type-instance tag leaves exactly f's sample when f is enabled and
nothing when it is disabled. -/
theorem dispatch_filter_char (f : Fin numFields) (s : curl_stats_t) (curl : CURL)
    (hostname plugin plugin_instance instPre : Option String) (sink : value_list → Int)
    (hsrc : ∀ i, (curl.getinfo_gauge i).isSome = true ∧ (curl.getinfo_long i).isSome = true)
    (hsink : ∀ v, 0 ≤ sink v) :
    ((curl_stats_dispatch (some s) (some curl) hostname plugin plugin_instance instPre
        sink).1).filter
        (fun vl => vl.type_instance == (instPre.getD "") ++ (fieldSpec f).name) =
      (if field_enabled s f then
        [mkSample (baseVL hostname plugin plugin_instance) instPre curl f]
      else []) := by
  rw [dispatch_char s curl hostname plugin plugin_instance instPre sink hsrc hsink]
  rw [filter_map_comm]
  rw [List.filter_congr (q := fun g => decide (g = f))
        (fun g _ => by
          by_cases hgf : g = f
          · subst hgf; simp [mkSample]
          · have hne : (instPre.getD "" ++ (fieldSpec g).name)
                ≠ (instPre.getD "" ++ (fieldSpec f).name) := fun heq =>
              hgf (name_inj g f (string_append_cancel _ _ _ heq))
            simp [mkSample, hne, hgf])]
  rw [List.filter_filter]
  rw [filter_eq_singleton (fun g => field_enabled s g) f (List.finRange numFields)
        (List.nodup_finRange numFields) (List.mem_finRange f)]
  cases hef : field_enabled s f <;> simp [hef]

/-- A configuration in which the same key appears twice, first with a true
value and last with a false value: under last-value-wins the field would
end up disabled. -/
def cfgC1 : oconfig_item :=
  .mk "Statistics" []
    [ .mk "total_time" [.boolean true] [],
      .mk "total_time" [.boolean false] [] ]

/-- C1 counterexample: with entries total_time=true then total_time=false,
curl_stats_from_config succeeds and leaves total_time ENABLED, although the
last occurrence carries false — enable_field only ever sets a flag, so a
later false never disables (not last-value-wins). -/
theorem from_config_last_value_counterexample :
    (curl_stats_from_config cfgC1).map
        (fun s => field_enabled s ⟨0, by decide⟩) = Except.ok true := rfl

/-- C1 (amended): on a well-formed configuration (every entry names a
registry field and carries one string-or-boolean value) construction
succeeds and enables exactly the fields for which SOME occurrence of their
key carries a true value, independent of entry order; a false occurrence
never disables a field enabled by another occurrence. -/
theorem from_config_enables_any (ci : oconfig_item)
    (h : ci.children.all entryWellFormed = true) :
    curl_stats_from_config ci =
      Except.ok (fun f => ci.children.any (fun c => entryEnables c f)) := by
  unfold curl_stats_from_config
  rw [configLoop_ok_of_wf _ _ h]
  rfl

/-- A well-formed configuration mixing letter cases, string and boolean
values, and a duplicate key whose later occurrence is false. -/
def cfgC1w : oconfig_item :=
  .mk "stats" []
    [ .mk "Total_Time" [.string "Yes"] [],
      .mk "speed_upload" [.boolean true] [],
      .mk "total_time" [.boolean false] [] ]

/-- C1 witness: the amended characterization evaluated on cfgC1w. -/
theorem from_config_enables_any_witness :
    curl_stats_from_config cfgC1w =
      Except.ok (fun f => cfgC1w.children.any (fun c => entryEnables c f)) :=
  from_config_enables_any cfgC1w (by decide)

/-- A configuration whose single entry matches a registry field but carries
a string that no boolean rule recognizes. -/
def cfgC2 : oconfig_item :=
  .mk "Statistics" [] [ .mk "total_time" [.string "banana"] [] ]

/-- C2 counterexample: the entry total_time="banana" carries a value that is
neither a boolean literal nor a string recognized as a boolean, yet
curl_stats_from_config SUCCEEDS (returning the all-disabled set) instead of
failing with InvalidValue: the code only checks the value's type, and an
unrecognized string merely fails the IS_TRUE test. -/
theorem from_config_string_accepted_counterexample :
    curl_stats_from_config cfgC2 = Except.ok curl_stats_init := rfl

/-- C2 (amended): when an entry's key matches a registry field but the
entry does not carry exactly one value of string or boolean type, and every
earlier entry is well-formed, construction fails with an InvalidValue error
naming the key and returns no field set (a single string value of any
content passes this check; only IS_TRUE decides enabling). -/
theorem from_config_invalid_value (ci : oconfig_item) (pre : List oconfig_item)
    (c : oconfig_item) (post : List oconfig_item)
    (hsplit : ci.children = pre ++ c :: post)
    (hpre : pre.all entryWellFormed = true)
    (hkey : (findField c.key).isSome = true)
    (hbad : entryWellTyped c = false) :
    curl_stats_from_config ci = Except.error (.invalidValue c.key) := by
  unfold curl_stats_from_config
  rw [hsplit, configLoop_first_bad pre c post _ hpre (by simp [entryWellFormed, hbad])]
  rw [if_pos hkey]

/-- A well-formed entry followed by a recognized key carrying no value. -/
def cfgC2w : oconfig_item :=
  .mk "stats" []
    [ .mk "connect_time" [.boolean true] [],
      .mk "total_time" [] [] ]

/-- C2 witness: the amended claim evaluated on cfgC2w. -/
theorem from_config_invalid_value_witness :
    curl_stats_from_config cfgC2w = Except.error (.invalidValue "total_time") :=
  from_config_invalid_value cfgC2w [ .mk "connect_time" [.boolean true] [] ]
    (.mk "total_time" [] []) [] rfl (by decide) (by decide) (by decide)

/-- A configuration containing an unknown key ("bogus") preceded by a
recognized key with bad arity. -/
def cfgC5 : oconfig_item :=
  .mk "Statistics" []
    [ .mk "total_time" [] [],
      .mk "bogus" [.boolean true] [] ]

/-- C5 counterexample: this tree contains an entry ("bogus") whose key
matches no registry field, yet construction fails with InvalidValue for the
earlier malformed entry, not with UnknownField: the loop reports the first
offending entry in order. -/
theorem from_config_unknown_after_invalid_counterexample :
    curl_stats_from_config cfgC5 = Except.error (.invalidValue "total_time") := rfl

/-- C5 (amended): when an entry's key matches no registry field under
case-insensitive comparison and every earlier entry is well-formed,
construction fails with an UnknownField error naming the key and returns no
field set at all (all-or-nothing). -/
theorem from_config_unknown_field (ci : oconfig_item) (pre : List oconfig_item)
    (c : oconfig_item) (post : List oconfig_item)
    (hsplit : ci.children = pre ++ c :: post)
    (hpre : pre.all entryWellFormed = true)
    (hunk : findField c.key = none) :
    curl_stats_from_config ci = Except.error (.unknownField c.key) := by
  unfold curl_stats_from_config
  rw [hsplit, configLoop_first_bad pre c post _ hpre (by simp [entryWellFormed, hunk])]
  rw [if_neg (by simp [hunk])]

/-- A well-formed entry followed by an unrecognized key. -/
def cfgC5w : oconfig_item :=
  .mk "stats" []
    [ .mk "Num_Connects" [.string "on"] [],
      .mk "latency" [.boolean true] [] ]

/-- C5 witness: the amended claim evaluated on cfgC5w. -/
theorem from_config_unknown_field_witness :
    curl_stats_from_config cfgC5w = Except.error (.unknownField "latency") :=
  from_config_unknown_field cfgC5w [ .mk "Num_Connects" [.string "on"] [] ]
    (.mk "latency" [.boolean true] []) [] rfl (by decide) (by decide)

/-- C3: on a statistics snapshot that answers every query, with a sink that
accepts every sample, dispatching with field f enabled emits exactly one
sample for f — type is the row's metric type, type-instance is the optional
instance string followed by the row's name, host/plugin/plugin-instance
are the call's metadata (empty when absent), and the value is the raw value
converted per the row's dispatcher — while dispatching with f disabled
emits no sample for f; the call returns 0. -/
theorem dispatch_roundtrip (f : Fin numFields) (s : curl_stats_t) (curl : CURL)
    (hostname plugin plugin_instance instPre : Option String) (sink : value_list → Int)
    (hsrc : ∀ i, (curl.getinfo_gauge i).isSome = true ∧ (curl.getinfo_long i).isSome = true)
    (hsink : ∀ v, 0 ≤ sink v) :
    ((curl_stats_dispatch (some s) (some curl) hostname plugin plugin_instance instPre
        sink).1).filter
        (fun vl => vl.type_instance == (instPre.getD "") ++ (fieldSpec f).name) =
      (if field_enabled s f then
        [{ host := hostname.getD "", plugin := plugin.getD "",
           plugin_instance := plugin_instance.getD "",
           type := (fieldSpec f).type,
           type_instance := (instPre.getD "") ++ (fieldSpec f).name,
           values := [(fieldExtract curl f).getD 0] }]
      else []) ∧
    (curl_stats_dispatch (some s) (some curl) hostname plugin plugin_instance instPre
        sink).2 = 0 := by
  constructor
  · rw [dispatch_filter_char f s curl hostname plugin plugin_instance instPre sink hsrc hsink]
    rfl
  · rw [dispatch_char s curl hostname plugin plugin_instance instPre sink hsrc hsink]

/-- A selector enabling total_time and header_size. -/
def sC3w : curl_stats_t := fun f => decide (f.val = 0 ∨ f.val = 8)

/-- A snapshot answering 2 to every floating-point query and 7 to every
integer query. -/
def curlC3w : CURL :=
  { getinfo_gauge := fun _ => some 2, getinfo_long := fun _ => some 7 }

/-- C3 witness: the round-trip theorem evaluated at header_size (row 8, an
integer-count field) on sC3w and curlC3w. -/
theorem dispatch_roundtrip_witness :
    ((curl_stats_dispatch (some sC3w) (some curlC3w) (some "h") (some "p") none
        (some "pre_") (fun _ => 0)).1).filter
        (fun vl => vl.type_instance == ((some "pre_").getD "") ++ (fieldSpec ⟨8, by decide⟩).name) =
      (if field_enabled sC3w ⟨8, by decide⟩ then
        [{ host := (some "h").getD "", plugin := (some "p").getD "",
           plugin_instance := (none : Option String).getD "",
           type := (fieldSpec ⟨8, by decide⟩).type,
           type_instance := ((some "pre_").getD "") ++ (fieldSpec ⟨8, by decide⟩).name,
           values := [(fieldExtract curlC3w ⟨8, by decide⟩).getD 0] }]
      else []) ∧
    (curl_stats_dispatch (some sC3w) (some curlC3w) (some "h") (some "p") none
        (some "pre_") (fun _ => 0)).2 = 0 :=
  dispatch_roundtrip ⟨8, by decide⟩ sC3w curlC3w (some "h") (some "p") none
    (some "pre_") (fun _ => 0) (fun _ => ⟨rfl, rfl⟩) (fun _ => le_refl 0)

/-- C6: for a field whose stored dispatcher is dispatch_speed, with raw
bytes-per-second value V, the one emitted sample for that field carries
exactly 8 times V. -/
theorem dispatch_speed_eight_times (f : Fin numFields) (s : curl_stats_t) (curl : CURL)
    (hostname plugin plugin_instance instPre : Option String) (sink : value_list → Int)
    (V : ℚ)
    (hkind : (fieldSpec f).dispatcher = DispatchKind.speed)
    (hen : field_enabled s f = true)
    (hV : curl.getinfo_gauge (fieldSpec f).info = some V)
    (hsrc : ∀ i, (curl.getinfo_gauge i).isSome = true ∧ (curl.getinfo_long i).isSome = true)
    (hsink : ∀ v, 0 ≤ sink v) :
    ((curl_stats_dispatch (some s) (some curl) hostname plugin plugin_instance instPre
        sink).1).filter
        (fun vl => vl.type_instance == (instPre.getD "") ++ (fieldSpec f).name) =
      [{ host := hostname.getD "", plugin := plugin.getD "",
         plugin_instance := plugin_instance.getD "",
         type := (fieldSpec f).type,
         type_instance := (instPre.getD "") ++ (fieldSpec f).name,
         values := [8 * V] }] := by
  rw [dispatch_filter_char f s curl hostname plugin plugin_instance instPre sink hsrc hsink]
  rw [if_pos hen]
  have hex : fieldExtract curl f = some (V * 8) := by
    unfold fieldExtract
    rw [hkind, hV]
    rfl
  simp [mkSample, baseVL, VALUE_LIST_INIT, hex, mul_comm]

/-- A selector enabling only speed_download (row 6). -/
def sC6w : curl_stats_t := fun f => decide (f.val = 6)

/-- A snapshot reporting 3/2 for every floating-point query. -/
def curlC6w : CURL :=
  { getinfo_gauge := fun _ => some (3 / 2), getinfo_long := fun _ => some 7 }

/-- C6 witness: the rate-conversion theorem evaluated at speed_download on
curlC6w, whose raw value is 3/2. -/
theorem dispatch_speed_eight_times_witness :
    ((curl_stats_dispatch (some sC6w) (some curlC6w) none none none none
        (fun _ => 0)).1).filter
        (fun vl => vl.type_instance == ((none : Option String).getD "")
            ++ (fieldSpec ⟨6, by decide⟩).name) =
      [{ host := (none : Option String).getD "", plugin := (none : Option String).getD "",
         plugin_instance := (none : Option String).getD "",
         type := (fieldSpec ⟨6, by decide⟩).type,
         type_instance := ((none : Option String).getD "") ++ (fieldSpec ⟨6, by decide⟩).name,
         values := [8 * (3 / 2)] }] :=
  dispatch_speed_eight_times ⟨6, by decide⟩ sC6w curlC6w none none none none
    (fun _ => 0) (3 / 2) rfl rfl rfl (fun _ => ⟨rfl, rfl⟩) (fun _ => le_refl 0)

/-- C7: for a field whose stored dispatcher is dispatch_size, with raw
native-integer value N, the one emitted sample for that field carries
exactly N widened to the value type (exact rationals in this model, so no
precision is lost). -/
theorem dispatch_size_widened (f : Fin numFields) (s : curl_stats_t) (curl : CURL)
    (hostname plugin plugin_instance instPre : Option String) (sink : value_list → Int)
    (N : Int)
    (hkind : (fieldSpec f).dispatcher = DispatchKind.size)
    (hen : field_enabled s f = true)
    (hN : curl.getinfo_long (fieldSpec f).info = some N)
    (hsrc : ∀ i, (curl.getinfo_gauge i).isSome = true ∧ (curl.getinfo_long i).isSome = true)
    (hsink : ∀ v, 0 ≤ sink v) :
    ((curl_stats_dispatch (some s) (some curl) hostname plugin plugin_instance instPre
        sink).1).filter
        (fun vl => vl.type_instance == (instPre.getD "") ++ (fieldSpec f).name) =
      [{ host := hostname.getD "", plugin := plugin.getD "",
         plugin_instance := plugin_instance.getD "",
         type := (fieldSpec f).type,
         type_instance := (instPre.getD "") ++ (fieldSpec f).name,
         values := [(N : ℚ)] }] := by
  rw [dispatch_filter_char f s curl hostname plugin plugin_instance instPre sink hsrc hsink]
  rw [if_pos hen]
  have hex : fieldExtract curl f = some ((N : ℚ)) := by
    unfold fieldExtract
    rw [hkind, hN]
    rfl
  simp [mkSample, baseVL, VALUE_LIST_INIT, hex]

/-- A selector enabling only num_connects (row 15). -/
def sC7w : curl_stats_t := fun f => decide (f.val = 15)

/-- A snapshot reporting the integer 9007199254740993 (one more than 2^53)
for every integer query. -/
def curlC7w : CURL :=
  { getinfo_gauge := fun _ => some 0, getinfo_long := fun _ => some 9007199254740993 }

/-- C7 witness: the widening theorem evaluated at num_connects on curlC7w. -/
theorem dispatch_size_widened_witness :
    ((curl_stats_dispatch (some sC7w) (some curlC7w) none none none none
        (fun _ => 0)).1).filter
        (fun vl => vl.type_instance == ((none : Option String).getD "")
            ++ (fieldSpec ⟨15, by decide⟩).name) =
      [{ host := (none : Option String).getD "", plugin := (none : Option String).getD "",
         plugin_instance := (none : Option String).getD "",
         type := (fieldSpec ⟨15, by decide⟩).type,
         type_instance := ((none : Option String).getD "") ++ (fieldSpec ⟨15, by decide⟩).name,
         values := [((9007199254740993 : Int) : ℚ)] }] :=
  dispatch_size_widened ⟨15, by decide⟩ sC7w curlC7w none none none none
    (fun _ => 0) 9007199254740993 rfl rfl rfl (fun _ => ⟨rfl, rfl⟩) (fun _ => le_refl 0)

/-- C4: if the k-th enabled field in registry order fails — extraction
returns no value, or the sink rejects its sample — then the emitted samples
are exactly those of the enabled fields strictly before it in registry
order (already handed over and kept), nothing is emitted for it or any
later field, and the call returns a negative status instead of 0. -/
theorem dispatch_short_circuit (f : Fin numFields) (s : curl_stats_t) (curl : CURL)
    (hostname plugin plugin_instance instPre : Option String) (sink : value_list → Int)
    (hen : field_enabled s f = true)
    (hprev : ∀ g : Fin numFields, g < f → field_enabled s g = true →
       (fieldExtract curl g).isSome = true ∧
       0 ≤ sink (mkSample (baseVL hostname plugin plugin_instance) instPre curl g))
    (hfail : fieldExtract curl f = none ∨
       sink (mkSample (baseVL hostname plugin plugin_instance) instPre curl f) < 0) :
    (curl_stats_dispatch (some s) (some curl) hostname plugin plugin_instance instPre
        sink).1 =
      ((List.finRange numFields).filter
          (fun g => field_enabled s g && decide (g < f))).map
        (mkSample (baseVL hostname plugin plugin_instance) instPre curl) ∧
    (curl_stats_dispatch (some s) (some curl) hostname plugin plugin_instance instPre
        sink).2 < 0 := by
  have hen2 : field_enabled s (fieldSpec f).offset = true := by
    rw [offset_eq]; exact hen
  obtain ⟨st, hst, hrun⟩ := runFields_fail s curl instPre sink
      (baseVL hostname plugin plugin_instance) f hen2 hfail
      ((List.finRange numFields).filter (fun g => decide (g < f)))
      ((List.finRange numFields).filter (fun g => decide (f < g)))
      (fun g hg hge => by
        rw [List.mem_filter] at hg
        refine hprev g (of_decide_eq_true hg.2) ?_
        rw [offset_eq] at hge
        exact hge)
  have hdisp : curl_stats_dispatch (some s) (some curl) hostname plugin plugin_instance
        instPre sink
      = runFields s curl instPre sink (baseVL hostname plugin plugin_instance)
          (List.finRange numFields) := rfl
  have hsp := congrArg
      (runFields s curl instPre sink (baseVL hostname plugin plugin_instance))
      (finRange_split f)
  rw [hrun] at hsp
  have hpe : (List.finRange numFields).filter
        (fun g => field_enabled s (fieldSpec g).offset && decide (g < f))
      = (List.finRange numFields).filter (fun g => field_enabled s g && decide (g < f)) :=
    List.filter_congr (fun g _ => by rw [offset_eq])
  constructor
  · rw [hdisp, hsp, List.filter_filter, hpe]
  · rw [hdisp, hsp]
    exact hst

/-- A selector enabling total_time (row 0), size_download (row 5) and
header_size (row 8). -/
def sC4w : curl_stats_t := fun f => decide (f.val = 0 ∨ f.val = 5 ∨ f.val = 8)

/-- A snapshot that fails the floating-point query for size_download and
answers everything else. -/
def curlC4w : CURL :=
  { getinfo_gauge := fun i => if i = .CURLINFO_SIZE_DOWNLOAD then none else some 4,
    getinfo_long := fun _ => some 4 }

/-- C4 witness: the short-circuit theorem evaluated where the second
enabled field (size_download) fails extraction. -/
theorem dispatch_short_circuit_witness :
    (curl_stats_dispatch (some sC4w) (some curlC4w) none none none none
        (fun _ => 0)).1 =
      ((List.finRange numFields).filter
          (fun g => field_enabled sC4w g && decide (g < (⟨5, by decide⟩ : Fin numFields)))).map
        (mkSample (baseVL none none none) none curlC4w) ∧
    (curl_stats_dispatch (some sC4w) (some curlC4w) none none none none
        (fun _ => 0)).2 < 0 :=
  dispatch_short_circuit ⟨5, by decide⟩ sC4w curlC4w none none none none
    (fun _ => 0) (by decide) (by decide) (Or.inl rfl)

/-- C8: two successfully constructed selectors that enable the same fields
(however their configurations were ordered) dispatch identically, the
emitted samples are the enabled fields' samples in registry order, and that
registry index order is strictly increasing. -/
theorem dispatch_registry_order (ci1 ci2 : oconfig_item) (s1 s2 : curl_stats_t)
    (curl : CURL) (hostname plugin plugin_instance instPre : Option String)
    (sink : value_list → Int)
    (h1 : curl_stats_from_config ci1 = Except.ok s1)
    (h2 : curl_stats_from_config ci2 = Except.ok s2)
    (hsame : ∀ f, field_enabled s1 f = field_enabled s2 f)
    (hsrc : ∀ i, (curl.getinfo_gauge i).isSome = true ∧ (curl.getinfo_long i).isSome = true)
    (hsink : ∀ v, 0 ≤ sink v) :
    curl_stats_dispatch (some s1) (some curl) hostname plugin plugin_instance instPre sink =
      curl_stats_dispatch (some s2) (some curl) hostname plugin plugin_instance instPre
        sink ∧
    (curl_stats_dispatch (some s1) (some curl) hostname plugin plugin_instance instPre
        sink).1 =
      ((List.finRange numFields).filter (fun g => field_enabled s1 g)).map
        (mkSample (baseVL hostname plugin plugin_instance) instPre curl) ∧
    ((List.finRange numFields).filter (fun g => field_enabled s1 g)).Pairwise
      (fun a b => a < b) := by
  have hs : s1 = s2 := funext (fun g => hsame g)
  refine ⟨by rw [hs], ?_, ?_⟩
  · rw [dispatch_char s1 curl hostname plugin plugin_instance instPre sink hsrc hsink]
  · exact List.Pairwise.sublist (List.filter_sublist _) finRange_pairwise

/-- total_time then num_connects, via a boolean and a synonym string. -/
def cfgC8a : oconfig_item :=
  .mk "stats" []
    [ .mk "total_time" [.boolean true] [],
      .mk "num_connects" [.string "on"] [] ]

/-- The same two fields enabled in the opposite entry order and letter
case. -/
def cfgC8b : oconfig_item :=
  .mk "stats" []
    [ .mk "Num_Connects" [.string "yes"] [],
      .mk "total_time" [.string "TRUE"] [] ]

/-- The selector cfgC8a constructs. -/
def sC8a : curl_stats_t :=
  enable_field (enable_field curl_stats_init ⟨0, by decide⟩) ⟨15, by decide⟩

/-- The selector cfgC8b constructs. -/
def sC8b : curl_stats_t :=
  enable_field (enable_field curl_stats_init ⟨15, by decide⟩) ⟨0, by decide⟩

/-- C8 witness: the ordering theorem evaluated on the two entry orders. -/
theorem dispatch_registry_order_witness :
    curl_stats_dispatch (some sC8a) (some curlC3w) none none none none (fun _ => 0) =
      curl_stats_dispatch (some sC8b) (some curlC3w) none none none none (fun _ => 0) ∧
    (curl_stats_dispatch (some sC8a) (some curlC3w) none none none none (fun _ => 0)).1 =
      ((List.finRange numFields).filter (fun g => field_enabled sC8a g)).map
        (mkSample (baseVL none none none) none curlC3w) ∧
    ((List.finRange numFields).filter (fun g => field_enabled sC8a g)).Pairwise
      (fun a b => a < b) :=
  dispatch_registry_order cfgC8a cfgC8b sC8a sC8b curlC3w none none none none
    (fun _ => 0) rfl rfl (by decide) (fun _ => ⟨rfl, rfl⟩) (fun _ => le_refl 0)

/-- A selector enabling only total_time. -/
def sC9 : curl_stats_t := fun f => decide (f.val = 0)

/-- A snapshot whose every query fails. -/
def curlFailC9 : CURL :=
  { getinfo_gauge := fun _ => none, getinfo_long := fun _ => none }

/-- C9 counterexample: with a selector present, a null transfer handle
returns -1 — but so does an extraction failure on a live handle: the two
failures share the same untyped status and are NOT reported distinctly. -/
theorem dispatch_null_source_status_counterexample :
    (curl_stats_dispatch (some sC9) none none none none none (fun _ => 0)).2 = -1 ∧
    (curl_stats_dispatch (some sC9) (some curlFailC9) none none none none
        (fun _ => 0)).2 = -1 :=
  ⟨rfl, rfl⟩

/-- C9 (amended): with a selector present, a null statistics-source handle
makes the call fail with status -1 and emit nothing — the same int value
the dispatchers return on extraction failure, so not a distinct error
class; a null selector is valid and returns success (0) with zero
samples. -/
theorem dispatch_null_args (stats : curl_stats_t) (curl : Option CURL)
    (hostname plugin plugin_instance instPre : Option String)
    (sink : value_list → Int) :
    curl_stats_dispatch (some stats) none hostname plugin plugin_instance instPre sink
      = ([], -1) ∧
    curl_stats_dispatch none curl hostname plugin plugin_instance instPre sink
      = ([], 0) :=
  ⟨rfl, rfl⟩

/-- C10: the null-selector check comes first: with a null selector the call
returns success and zero samples for EVERY source argument, null included,
so the null-source failure can only be reported when a selector is
present. -/
theorem dispatch_null_selector_first (curl : Option CURL)
    (hostname plugin plugin_instance instPre : Option String)
    (sink : value_list → Int) :
    curl_stats_dispatch none curl hostname plugin plugin_instance instPre sink
      = ([], 0) :=
  rfl
